import Mathlib

/-!
Verification of the `close` crate: a `Close` trait for ownership-consuming,
fallible teardown, and a `Closing<T>` smart pointer that closes the contained
value on drop unless it was extracted or closed explicitly.

Side effects of a Rust `close(self)` call are made observable by embedding a
close operation as a state-passing function `CloseFn σ α ε`: given the value
and the current effect state it returns the new state and `Result<(), E>`
(embedded as `Except ε Unit`).
-/

namespace CloseSpec

/-- Embedding of Rust `Result<(), E>::err()`: `Ok(()) ↦ None`, `Err(e) ↦ Some(e)`. -/
def resultErr : Except ε Unit → Option ε
  | .ok _ => none
  | .error e => some e

/-- A closable type's `close` operation (`fn close(self) -> Result<(), Error>`),
with its side effects embedded as explicit state passing over `σ`. -/
def CloseFn (σ α ε : Type) : Type := α → σ → σ × Except ε Unit

/-- A close operation whose per-value outcome is given by the pure function
`base` and whose only side effect is to bump an invocation counter. This is
the "close increments a shared counter" instrumentation of the spec's tests. -/
def countingClose (base : α → Except ε Unit) : CloseFn Nat α ε :=
  fun a n => (n + 1, base a)

/-- Embedding of `std::mem::MaybeUninit<T>`: storage that either holds a value
or is uninitialized. -/
def MaybeUninit (α : Type) : Type := Option α

/-- `MaybeUninit::new`. -/
def MaybeUninit.new (v : α) : MaybeUninit α := some v

/-- `MaybeUninit::uninit`. -/
def MaybeUninit.uninit : MaybeUninit α := none

/-- `MaybeUninit::assume_init` (also `assume_init_ref` / `assume_init_mut`):
reading the stored value. Reading uninitialized storage is undefined behaviour
in Rust; the embedding returns `none` for that (unreachable) case. -/
def MaybeUninit.assume_init (m : MaybeUninit α) : Option α := m

/-- `pub struct Closing<T: Close>(std::mem::MaybeUninit<T>);` -/
structure Closing (α : Type) where
  cell : MaybeUninit α

/-- `Closing::uninit` (private): `std::mem::replace(&mut self.0, MaybeUninit::uninit()).assume_init()`.
Returns the value read from storage (`none` when the storage was already
uninitialized, which is UB and unreachable in the source) together with the
wrapper whose storage has been replaced by uninitialized storage. -/
def Closing.uninit (c : Closing α) : Option α × Closing α :=
  (MaybeUninit.assume_init c.cell, ⟨MaybeUninit.uninit⟩)

/-- `Closing::into_inner`: swaps the contents out via `uninit` and then
`mem::forget`s the wrapper, returning the inner value. The `mem::forget`
means the wrapper's `drop` never runs afterwards; lifecycle-level definitions
below model that by running end-of-scope on `none`. -/
def Closing.into_inner (c : Closing α) : Option α :=
  (Closing.uninit c).1

/-- `impl From<T> for Closing<T>`: `Closing(MaybeUninit::new(value))`. -/
def Closing.fromValue (v : α) : Closing α :=
  ⟨MaybeUninit.new v⟩

/-- `impl Deref for Closing<T>`: `self.0.assume_init_ref()`. -/
def Closing.deref (c : Closing α) : Option α :=
  MaybeUninit.assume_init c.cell

/-- A write through `impl DerefMut for Closing<T>` (`self.0.assume_init_mut()`):
mutating the referent of the returned `&mut T` by `f` updates the storage in
place. On uninitialized storage obtaining the reference is UB (unreachable);
the embedding leaves such storage unchanged. -/
def Closing.writeMut (f : α → α) (c : Closing α) : Closing α :=
  ⟨Option.map f c.cell⟩

/-- `impl Close for Closing<T>`: `self.into_inner().close()`. Returns the new
effect state and the close result (`none` only in the unreachable UB case). -/
def Closing.closeSelf (c : CloseFn σ α ε) (w : Closing α) (s : σ) :
    σ × Option (Except ε Unit) :=
  match Closing.into_inner w with
  | none => (s, none)
  | some inner =>
    let (s, r) := c inner s
    (s, some r)

/-- Outcome of reaching end of scope for a `Closing` binding. -/
inductive DropExit (ε : Type) where
  | skipped
  | ok
  | abort (e : ε)
  | ub
  deriving DecidableEq, Repr

/-- `impl Drop for Closing<T>`:
`let inner = unsafe { self.uninit() }; inner.close().expect("failed to close on drop");`.
A close failure makes `expect` panic, aborting with the error's Debug
representation: embedded as `DropExit.abort e`. Running `drop` on vacated
storage would be UB (`DropExit.ub`), but is unreachable because every
extraction path calls `mem::forget`. -/
def Closing.dropRun (c : CloseFn σ α ε) (w : Closing α) (s : σ) : σ × DropExit ε :=
  match (Closing.uninit w).1 with
  | none => (s, .ub)
  | some inner =>
    let (s, r) := c inner s
    (s, match r with
        | .ok _ => .ok
        | .error e => .abort e)

/-- End-of-scope semantics of a `Closing` binding: Rust runs `drop` unless the
wrapper was consumed by `mem::forget` (which `into_inner`, and hence the
explicit `close`, performs); the `none` argument is the forgotten case. -/
def endOfScope (c : CloseFn σ α ε) : Option (Closing α) → σ → σ × DropExit ε
  | none, s => (s, .skipped)
  | some w, s => Closing.dropRun c w s

/-- The three ways a `Closing` wrapper's life can end. -/
inductive ExitPath where
  | explicitClose
  | intoInner
  | scopeExit
  deriving DecidableEq, Repr

/-- What a lifecycle run reports: the result the explicit `close` returned to
the caller (when that path was taken) and the end-of-scope outcome. -/
structure RunResult (ε : Type) where
  closeResult : Option (Except ε Unit)
  exit : DropExit ε
  deriving Repr

/-- One complete life of a wrapper built by `Closing::from(v)`: use, then one
of the three exits. `into_inner` (run directly or from the explicit `close`)
calls `mem::forget`, so on those paths end-of-scope sees a forgotten wrapper;
only a wrapper still holding its value at end of scope is dropped. -/
def lifecycle (c : CloseFn σ α ε) (v : α) : ExitPath → σ → σ × RunResult ε
  | .explicitClose, s =>
    let w := Closing.fromValue v
    let (s, r) := Closing.closeSelf c w s
    let (s, ex) := endOfScope c none s
    (s, ⟨r, ex⟩)
  | .intoInner, s =>
    let w := Closing.fromValue v
    let _inner := Closing.into_inner w
    let (s, ex) := endOfScope c none s
    (s, ⟨none, ex⟩)
  | .scopeExit, s =>
    let w := Closing.fromValue v
    let (s, ex) := endOfScope c (some w) s
    (s, ⟨none, ex⟩)

/-- `impl Close for (T0,)`: `self.0.close()` (error type `T0::Error`). -/
def close1 (c0 : CloseFn σ α₀ ε₀) (t : α₀) (s : σ) : σ × Except ε₀ Unit :=
  c0 t s

/-- Modelled from the spec's words for the arity-1 tuple, for comparison with
`close1`: the error type is a same-arity (1-)tuple of optional per-slot
errors, so a failing slot with error `e` would be reported as `Some e` and the
result would be success only when the slot's optional error is `None`. The
actual impl (`impl Close for (T0,)`) instead delegates directly with the raw
slot error; see the C4 counterexample. -/
def close1Claimed (c0 : CloseFn σ α₀ ε₀) (t : α₀) (s : σ) : σ × Except (Option ε₀) Unit :=
  let (s, r0) := c0 t s
  let result := resultErr r0
  (s, if result.isNone then .ok () else .error result)

/-- `impl Close for (T0, T1)`: both slots are closed in order, then
`Ok(())` when both `err()`s are `None`, else `Err((err0, err1))`. -/
def close2 (c0 : CloseFn σ α₀ ε₀) (c1 : CloseFn σ α₁ ε₁) (t : α₀ × α₁) (s : σ) :
    σ × Except (Option ε₀ × Option ε₁) Unit :=
  let (s, r0) := c0 t.1 s
  let (s, r1) := c1 t.2 s
  let result := (resultErr r0, resultErr r1)
  (s, if result.1.isNone && result.2.isNone then .ok () else .error result)

/-- `impl Close for (T0, T1, T2)`: all three slots are closed in order, then
success iff every `err()` is `None`, else the triple of optional errors. -/
def close3 (c0 : CloseFn σ α₀ ε₀) (c1 : CloseFn σ α₁ ε₁) (c2 : CloseFn σ α₂ ε₂)
    (t : α₀ × α₁ × α₂) (s : σ) :
    σ × Except (Option ε₀ × Option ε₁ × Option ε₂) Unit :=
  let (s, r0) := c0 t.1 s
  let (s, r1) := c1 t.2.1 s
  let (s, r2) := c2 t.2.2 s
  let result := (resultErr r0, resultErr r1, resultErr r2)
  (s, if result.1.isNone && result.2.1.isNone && result.2.2.isNone then .ok ()
      else .error result)

/-- `impl Close for (T0, T1, T2, T3)`: all four slots are closed in order, then
success iff every `err()` is `None`, else the quadruple of optional errors. -/
def close4 (c0 : CloseFn σ α₀ ε₀) (c1 : CloseFn σ α₁ ε₁) (c2 : CloseFn σ α₂ ε₂)
    (c3 : CloseFn σ α₃ ε₃) (t : α₀ × α₁ × α₂ × α₃) (s : σ) :
    σ × Except (Option ε₀ × Option ε₁ × Option ε₂ × Option ε₃) Unit :=
  let (s, r0) := c0 t.1 s
  let (s, r1) := c1 t.2.1 s
  let (s, r2) := c2 t.2.2.1 s
  let (s, r3) := c3 t.2.2.2 s
  let result := (resultErr r0, resultErr r1, resultErr r2, resultErr r3)
  (s, if result.1.isNone && result.2.1.isNone && result.2.2.1.isNone
         && result.2.2.2.isNone then .ok ()
      else .error result)

/-- `self.into_iter().map(|item| item.close().err()).collect()`: close every
element left to right, collecting each element's optional error. -/
def mapCloseErr (c : CloseFn σ α ε) : List α → σ → σ × List (Option ε)
  | [], s => (s, [])
  | x :: xs, s =>
    let (s, r) := c x s
    let (s, rs) := mapCloseErr c xs s
    (s, resultErr r :: rs)

/-- `impl Close for Vec<T>`: close all elements collecting their optional
errors; `Ok(())` when every entry is `None`, else `Err(result)`. -/
def closeVec (c : CloseFn σ α ε) (xs : List α) (s : σ) :
    σ × Except (List (Option ε)) Unit :=
  let (s, result) := mapCloseErr c xs s
  (s, if result.all Option.isNone then .ok () else .error result)

/-- Embedding of `Box<T>`: exclusively owned heap storage of one value. -/
structure Box (α : Type) where
  inner : α

/-- `impl Close for Box<T>`: `(*self).close()`. -/
def closeBox (c : CloseFn σ α ε) (b : Box α) (s : σ) : σ × Except ε Unit :=
  c b.inner s

/-- `impl Close for Option<T>`: `Some(v)` delegates to `v.close()`, `None`
returns `Ok(())`. -/
def closeOption (c : CloseFn σ α ε) : Option α → σ → σ × Except ε Unit
  | some v, s => c v s
  | none, s => (s, .ok ())

/-- Embedding of `std::fs::File`, abstracted to what the crate uses of it:
`sync_all` is the outcome of the handle's flush-to-durable-storage primitive
(`std::io::Result<()>` over an abstract io-error type `ι`). -/
structure File (ι : Type) where
  sync_all : Except ι Unit

/-- `impl Close for std::fs::File`: `self.sync_all()`. -/
def File.close (f : File ι) : Except ι Unit :=
  f.sync_all

/-! Shared lemmas -/

/-- `Result::err()` is `None` exactly on success. -/
theorem resultErr_eq_none (r : Except ε Unit) : resultErr r = none ↔ r = Except.ok () := by
  cases r with
  | ok u => cases u; simp [resultErr]
  | error e => simp [resultErr]

/-- `Result::err()` is `Some e` exactly on failure with `e`. -/
theorem resultErr_eq_some (r : Except ε Unit) (e : ε) :
    resultErr r = some e ↔ r = Except.error e := by
  cases r with
  | ok u => simp [resultErr]
  | error e' => simp [resultErr]

/-- Closing a list with a counter-instrumented close bumps the counter once per
element and collects each element's optional error in order. -/
theorem mapCloseErr_countingClose (f : α → Except ε Unit) (xs : List α) (n : Nat) :
    mapCloseErr (countingClose f) xs n = (n + xs.length, xs.map (fun x => resultErr (f x))) := by
  induction xs generalizing n with
  | nil => simp [mapCloseErr]
  | cons x xs ih =>
    simp [mapCloseErr, countingClose, ih]
    omega

/-! Claim theorems -/

/-- C1: per wrapper instance the wrapped value's close runs exactly once —
once over the whole life of a wrapper that is closed explicitly (the drop
at end of scope is skipped because `close` forgets the wrapper), once for a
still-holding wrapper dropped at end of scope, and zero times over the whole
life of a wrapper whose value was extracted via `into_inner`. -/
theorem close_runs_exactly_once_per_wrapper (base : α → Except ε Unit) (v : α) (n : Nat) :
    (lifecycle (countingClose base) v .explicitClose n).1 = n + 1 ∧
    (lifecycle (countingClose base) v .scopeExit n).1 = n + 1 ∧
    (lifecycle (countingClose base) v .intoInner n).1 = n :=
  ⟨rfl, rfl, rfl⟩

/-- C2: the drop of a still-holding wrapper extracts the value and invokes its
close, aborting (panicking via `expect`) with the error when close fails and
finishing normally when it succeeds; end of scope after the wrapper was
emptied by `into_inner` or by explicit close skips the drop entirely. -/
theorem drop_closes_then_aborts_on_failure (c : CloseFn σ α ε) (v : α) (s sf : σ)
    (r : Except ε Unit) (h : c v s = (sf, r)) :
    Closing.dropRun c (Closing.fromValue v) s =
      (sf, match r with
           | .ok _ => DropExit.ok
           | .error e => DropExit.abort e) ∧
    endOfScope c none s = (s, DropExit.skipped) ∧
    (lifecycle c v .intoInner s).2.exit = DropExit.skipped ∧
    (lifecycle c v .explicitClose s).2.exit = DropExit.skipped := by
  refine ⟨?_, rfl, rfl, ?_⟩
  · cases r <;>
      simp [Closing.dropRun, Closing.uninit, Closing.fromValue, MaybeUninit.new,
        MaybeUninit.uninit, MaybeUninit.assume_init, h]
  · simp [lifecycle, Closing.closeSelf, Closing.into_inner, Closing.uninit, Closing.fromValue,
      MaybeUninit.new, MaybeUninit.uninit, MaybeUninit.assume_init, h, endOfScope]

/-- Witness for C2: a close that fails with error 9 after one invocation. -/
theorem drop_closes_then_aborts_on_failure_witness :
    Closing.dropRun (countingClose (fun a => if a = 0 then Except.error 9 else Except.ok ()))
        (Closing.fromValue 0) 0 = (1, DropExit.abort 9) ∧
    endOfScope (countingClose (fun a => if a = 0 then Except.error 9 else Except.ok ()))
        none 0 = (0, DropExit.skipped) ∧
    (lifecycle (countingClose (fun a => if a = 0 then Except.error 9 else Except.ok ()))
        0 .intoInner 0).2.exit = DropExit.skipped ∧
    (lifecycle (countingClose (fun a => if a = 0 then Except.error 9 else Except.ok ()))
        0 .explicitClose 0).2.exit = DropExit.skipped :=
  drop_closes_then_aborts_on_failure _ 0 0 1 (Except.error 9) rfl

/-- C3: closing a `Vec` invokes close on all `n` elements (counter goes up by
`n`), succeeds iff every element succeeds, and on failure returns the list of
optional per-element errors in original order, `Some` exactly at the failing
elements. -/
theorem vec_close_attempts_all_and_aggregates (f : α → Except ε Unit) (xs : List α) (n : Nat) :
    (closeVec (countingClose f) xs n).1 = n + xs.length ∧
    ((closeVec (countingClose f) xs n).2 = Except.ok () ↔ ∀ x ∈ xs, f x = Except.ok ()) ∧
    ((¬ ∀ x ∈ xs, f x = Except.ok ()) →
      (closeVec (countingClose f) xs n).2 = Except.error (xs.map fun x => resultErr (f x))) := by
  have hall : ((xs.map fun x => resultErr (f x)).all Option.isNone = true)
      ↔ ∀ x ∈ xs, f x = Except.ok () := by
    simp [List.all_eq_true, Option.isNone_iff_eq_none, resultErr_eq_none]
  refine ⟨?_, ?_, ?_⟩
  · simp only [closeVec, mapCloseErr_countingClose]
  · simp only [closeVec, mapCloseErr_countingClose]
    by_cases h : (xs.map fun x => resultErr (f x)).all Option.isNone
    · simpa [h] using hall.mp h
    · simp only [h, if_false]
      constructor
      · intro hc; exact absurd hc (by simp)
      · intro hx; exact absurd (hall.mpr hx) h
  · intro hx
    have h : ¬ (xs.map fun x => resultErr (f x)).all Option.isNone := fun h => hx (hall.mp h)
    simp only [closeVec, mapCloseErr_countingClose]
    simp [h]

/-- Witness for C3: the spec's example — three elements where only element 1
fails with error 1 yields failure with error list `[None, Some 1, None]`. -/
theorem vec_close_attempts_all_and_aggregates_witness :
    (closeVec (countingClose fun k => if k = 1 then Except.error 1 else Except.ok ())
        [0, 1, 2] 0).1 = 3 ∧
    (closeVec (countingClose fun k => if k = 1 then Except.error 1 else Except.ok ())
        [0, 1, 2] 0).2 = Except.error [none, some 1, none] := by
  have h := vec_close_attempts_all_and_aggregates
    (fun k => if k = 1 then Except.error 1 else Except.ok ()) [0, 1, 2] 0
  refine ⟨h.1, ?_⟩
  have hx : ¬ ∀ x ∈ [0, 1, 2],
      (if x = 1 then Except.error 1 else Except.ok ()) = Except.ok () := by
    intro hall
    have h1 := hall 1 (by simp)
    simp at h1
  simpa using h.2.2 hx

/-- C4 counterexample: the claim's stated error shape is wrong for arity 1.
Take the slot's error type to be `Option Nat` and a slot whose close fails
with error value `none`. The code's arity-1 close (`close1`, direct
delegation per `impl Close for (T0,)`) reports the raw error `none`, so read
as the claim's 1-tuple of optional per-slot errors it marks the failed slot
as carrying no error, while the claimed shape (`close1Claimed`) reports
`some none` — and in the claimed error type these payloads differ, even
though the slot's close did fail. -/
theorem tuple1_error_not_optional_tuple :
    close1 (countingClose fun _ : Nat => Except.error (none : Option Nat)) 0 0 =
      (1, Except.error none) ∧
    (fun _ : Nat => Except.error (none : Option Nat)) 0 ≠
      (Except.ok () : Except (Option Nat) Unit) ∧
    close1Claimed (countingClose fun _ : Nat => Except.error (none : Option Nat)) 0 0 =
      (1, Except.error (some none)) ∧
    (Except.error (some (none : Option Nat)) : Except (Option (Option Nat)) Unit) ≠
      Except.error none := by
  refine ⟨rfl, ?_, rfl, ?_⟩ <;> simp

/-- C4 (amended): tuple close for arities 2–4 closes every slot (counter goes
up by the arity, so no short-circuit), succeeds iff every slot succeeds, and
on failure returns the same-arity tuple of optional per-slot errors, `Some`
exactly at the failing slots; arity 1 instead delegates directly to the single
slot's close, with the slot's own error type and the raw error on failure. -/
theorem tuple_close_attempts_all_slots
    (f0 : α₀ → Except ε₀ Unit) (f1 : α₁ → Except ε₁ Unit)
    (f2 : α₂ → Except ε₂ Unit) (f3 : α₃ → Except ε₃ Unit)
    (a0 : α₀) (a1 : α₁) (a2 : α₂) (a3 : α₃) (n : Nat) :
    close1 (countingClose f0) a0 n = (n + 1, f0 a0) ∧
    ((close2 (countingClose f0) (countingClose f1) (a0, a1) n).1 = n + 2 ∧
     ((close2 (countingClose f0) (countingClose f1) (a0, a1) n).2 = Except.ok () ↔
       f0 a0 = Except.ok () ∧ f1 a1 = Except.ok ()) ∧
     (¬ (f0 a0 = Except.ok () ∧ f1 a1 = Except.ok ()) →
       (close2 (countingClose f0) (countingClose f1) (a0, a1) n).2 =
         Except.error (resultErr (f0 a0), resultErr (f1 a1)))) ∧
    ((close3 (countingClose f0) (countingClose f1) (countingClose f2) (a0, a1, a2) n).1 =
       n + 3 ∧
     ((close3 (countingClose f0) (countingClose f1) (countingClose f2) (a0, a1, a2) n).2 =
        Except.ok () ↔
       f0 a0 = Except.ok () ∧ f1 a1 = Except.ok () ∧ f2 a2 = Except.ok ()) ∧
     (¬ (f0 a0 = Except.ok () ∧ f1 a1 = Except.ok () ∧ f2 a2 = Except.ok ()) →
       (close3 (countingClose f0) (countingClose f1) (countingClose f2) (a0, a1, a2) n).2 =
         Except.error (resultErr (f0 a0), resultErr (f1 a1), resultErr (f2 a2)))) ∧
    ((close4 (countingClose f0) (countingClose f1) (countingClose f2) (countingClose f3)
        (a0, a1, a2, a3) n).1 = n + 4 ∧
     ((close4 (countingClose f0) (countingClose f1) (countingClose f2) (countingClose f3)
        (a0, a1, a2, a3) n).2 = Except.ok () ↔
       f0 a0 = Except.ok () ∧ f1 a1 = Except.ok () ∧ f2 a2 = Except.ok () ∧
         f3 a3 = Except.ok ()) ∧
     (¬ (f0 a0 = Except.ok () ∧ f1 a1 = Except.ok () ∧ f2 a2 = Except.ok () ∧
          f3 a3 = Except.ok ()) →
       (close4 (countingClose f0) (countingClose f1) (countingClose f2) (countingClose f3)
          (a0, a1, a2, a3) n).2 =
         Except.error (resultErr (f0 a0), resultErr (f1 a1), resultErr (f2 a2),
           resultErr (f3 a3)))) := by
  cases h0 : f0 a0 <;> cases h1 : f1 a1 <;> cases h2 : f2 a2 <;> cases h3 : f3 a3 <;>
    simp [close1, close2, close3, close4, countingClose, resultErr, h0, h1, h2, h3]

/-- Witness for C4: slots over Nat where slots 1 and 3 fail with errors 7 and
8; the pair reports `(None, Some 7)`, the quadruple `(None, Some 7, None,
Some 8)`, and all slots are attempted. -/
theorem tuple_close_attempts_all_slots_witness :
    (close2 (countingClose fun _ : Nat => (Except.ok () : Except Nat Unit))
        (countingClose fun _ : Nat => Except.error 7) (10, 20) 0).1 = 2 ∧
    (close2 (countingClose fun _ : Nat => (Except.ok () : Except Nat Unit))
        (countingClose fun _ : Nat => Except.error 7) (10, 20) 0).2 =
      Except.error (none, some 7) ∧
    (close4 (countingClose fun _ : Nat => (Except.ok () : Except Nat Unit))
        (countingClose fun _ : Nat => Except.error 7)
        (countingClose fun _ : Nat => (Except.ok () : Except Nat Unit))
        (countingClose fun _ : Nat => Except.error 8) (10, 20, 30, 40) 0).2 =
      Except.error (none, some 7, none, some 8) := by
  have h := tuple_close_attempts_all_slots
    (fun _ : Nat => (Except.ok () : Except Nat Unit)) (fun _ : Nat => Except.error 7)
    (fun _ : Nat => (Except.ok () : Except Nat Unit)) (fun _ : Nat => Except.error 8) 10 20 30 40 0
  exact ⟨h.2.1.1, h.2.1.2.2 (by simp), h.2.2.2.2.2 (by simp)⟩

/-- C5: wrapping a value and immediately extracting it returns the same value,
and the wrap/extract pair alone performs no close invocation and no state
change (end of scope after extraction is skipped). -/
theorem wrap_then_extract_is_identity (c : CloseFn σ α ε) (v : α) (s : σ) :
    Closing.into_inner (Closing.fromValue v) = some v ∧
    lifecycle c v .intoInner s = (s, ⟨none, DropExit.skipped⟩) :=
  ⟨rfl, rfl⟩

/-- C6: while the wrapper still holds its value, dereferencing observes
exactly the value that `into_inner` would return. -/
theorem deref_observes_extraction_value (w : Closing α) (v : α)
    (h : w.cell = MaybeUninit.new v) :
    Closing.deref w = some v ∧ Closing.into_inner w = Closing.deref w := by
  cases w with
  | mk cell =>
    simp [Closing.deref, Closing.into_inner, Closing.uninit, MaybeUninit.assume_init,
      MaybeUninit.new] at h ⊢
    simp [h, MaybeUninit.new]

/-- Witness for C6: a wrapper freshly holding 7. -/
theorem deref_observes_extraction_value_witness :
    Closing.deref (Closing.fromValue 7) = some 7 ∧
    Closing.into_inner (Closing.fromValue 7) = Closing.deref (Closing.fromValue 7) :=
  deref_observes_extraction_value (Closing.fromValue 7) 7 rfl

/-- C7: closing `None` always succeeds; closing `Some x` is exactly closing
`x`, same state change and same result. -/
theorem option_close_none_ok_some_delegates (c : CloseFn σ α ε) (x : α) (s : σ) :
    closeOption c none s = (s, Except.ok ()) ∧
    closeOption c (some x) s = c x s :=
  ⟨rfl, rfl⟩

/-- C8: closing a boxed value is exactly closing the inner value directly,
same state change and same result. -/
theorem box_close_equals_inner_close (c : CloseFn σ α ε) (b : Box α) (s : σ) :
    closeBox c b s = c b.inner s :=
  rfl

/-- C9: the file binding's close is the result of the handle's durable-sync
primitive: it succeeds iff `sync_all` succeeds, and any `sync_all` error is
returned unchanged. -/
theorem file_close_delegates_to_sync_all (f : File ι) :
    File.close f = f.sync_all ∧
    (File.close f = Except.ok () ↔ f.sync_all = Except.ok ()) ∧
    ∀ e : ι, File.close f = Except.error e ↔ f.sync_all = Except.error e :=
  ⟨rfl, Iff.rfl, fun _ => Iff.rfl⟩

/-- C10: a write through the mutable dereference persists in the wrapper's
storage: a subsequent dereference, extraction, or close observes the mutated
value. -/
theorem deref_mut_writes_persist (w : Closing α) (v : α) (f : α → α) (c : CloseFn σ α ε)
    (s : σ) (h : w.cell = MaybeUninit.new v) :
    Closing.into_inner (Closing.writeMut f w) = some (f v) ∧
    Closing.deref (Closing.writeMut f w) = some (f v) ∧
    Closing.closeSelf c (Closing.writeMut f w) s = (let p := c (f v) s; (p.1, some p.2)) := by
  cases w with
  | mk cell =>
    simp [MaybeUninit.new] at h
    subst h
    refine ⟨rfl, rfl, ?_⟩
    simp [Closing.closeSelf, Closing.writeMut, Closing.into_inner, Closing.uninit,
      MaybeUninit.assume_init, MaybeUninit.new, MaybeUninit.uninit]

/-- Witness for C10: incrementing the stored 2 through the mutable reference
makes extraction, dereference, and close all observe 3. -/
theorem deref_mut_writes_persist_witness :
    Closing.into_inner (Closing.writeMut Nat.succ (Closing.fromValue 2)) = some 3 ∧
    Closing.deref (Closing.writeMut Nat.succ (Closing.fromValue 2)) = some 3 ∧
    Closing.closeSelf (countingClose fun _ : Nat => (Except.ok () : Except Nat Unit))
        (Closing.writeMut Nat.succ (Closing.fromValue 2)) 0 = (1, some (Except.ok ())) :=
  deref_mut_writes_persist (Closing.fromValue 2) 2 Nat.succ
    (countingClose fun _ : Nat => (Except.ok () : Except Nat Unit)) 0 rfl

end CloseSpec
